import Mathlib

/-!
# Books REST server: controller and status-code route

A shallow embedding of `rest-server.go`.  The controller's store `r.Books` is
threaded explicitly through every method; each method returns what happened to
the request together with the store it leaves behind.

The web framework (goweb) and the Go standard library are not part of the
program.  A response is therefore recorded as the responder call the handler
makes, with the arguments it passes; `Response.status` reads the numeric status
off that call.
-/

namespace RestServer

/-! ## Data model -/

/-- The `Book` struct: four string fields. -/
structure Book where
  Id : String
  Title : String
  Author : String
  Price : String
  deriving DecidableEq, Repr

/-- A Go slice `[]*Book`: `none` is the nil slice, `some xs` a non-nil slice
holding `xs`.  The pointers stored are always fresh allocations made by
`Create` and no book is ever written after it is stored, so a slice is
recorded by the values it points to. -/
abbrev BookSlice := Option (List Book)

/-- The entities a slice holds, in order (what `range` iterates over). -/
def BookSlice.entities : BookSlice → List Book
  | none => []
  | some xs => xs

/-- The `BooksController` struct: the fake datastore. -/
structure BooksController where
  Books : BookSlice
  deriving DecidableEq, Repr

/-- The result of `new(BooksController)`: the zero value, `Books` is nil. -/
def BooksController.new : BooksController := ⟨none⟩

/-- A dynamically typed value `interface{}` as a decoded request body holds
it.  The payload of a number is never inspected by the program. -/
inductive Value where
  | nil
  | bool (b : Bool)
  | float64 (n : Int)
  | string (s : String)
  | slice (xs : List Value)
  | map (fields : List (String × Value))

/-- The name of a value's dynamic type, `none` for the nil interface. -/
def Value.typeName : Value → Option String
  | .nil => none
  | .bool _ => some "bool"
  | .float64 _ => some "float64"
  | .string _ => some "string"
  | .slice _ => some "[]interface {}"
  | .map _ => some "map[string]interface {}"

/-- Indexing a `map[string]interface{}`: the value stored under the key, or the
zero value (the nil interface) when the key is absent. -/
def index (dataMap : List (String × Value)) (key : String) : Value :=
  match dataMap.lookup key with
  | some v => v
  | none => Value.nil

/-- The run-time error raised by a failed type assertion `x.(T)`: the dynamic
type found (`none` for nil) and the type asserted. -/
structure TypeAssertionError where
  concrete : Option String
  asserted : String
  deriving DecidableEq, Repr

/-- The type assertion `v.(string)`. -/
def assertString (v : Value) : Except TypeAssertionError String :=
  match v with
  | .string s => .ok s
  | other => .error ⟨other.typeName, "string"⟩

/-- The type assertion `v.(map[string]interface{})`. -/
def assertMap (v : Value) : Except TypeAssertionError (List (String × Value)) :=
  match v with
  | .map fields => .ok fields
  | other => .error ⟨other.typeName, "map[string]interface {}"⟩

/-! ## Responses -/

namespace http

def StatusOK : Int := 200
def StatusCreated : Int := 201
def StatusNotFound : Int := 404
def StatusInternalServerError : Int := 500

end http

/-- The data handed to `goweb.API.RespondWithData`. -/
inductive Data where
  | book (b : Book)
  | books (bs : BookSlice)
  deriving DecidableEq, Repr

/-- The responder call a handler ends with. -/
inductive Response where
  /-- The call `goweb.Respond.With(c, status, body)`. -/
  | With (httpStatus : Int) (body : String)
  /-- The call `goweb.Respond.WithStatus(c, status)`: a status and no body. -/
  | WithStatus (httpStatus : Int)
  /-- The call `goweb.Respond.WithStatusText(c, status)`: the body is the status text. -/
  | WithStatusText (httpStatus : Int)
  /-- The call `goweb.Respond.WithOK(c)`. -/
  | WithOK
  /-- The call `goweb.API.RespondWithData(c, data)`. -/
  | RespondWithData (data : Data)
  /-- The call `goweb.API.RespondWithError(c, status, message)`. -/
  | RespondWithError (httpStatus : Int) (message : String)
  deriving DecidableEq, Repr

/-- The numeric status a responder call writes. -/
def Response.status : Response → Int
  | .With s _ => s
  | .WithStatus s => s
  | .WithStatusText s => s
  | .WithOK => http.StatusOK
  | .RespondWithData _ => http.StatusOK
  | .RespondWithError s _ => s

/-- Whether the call is the status-only one, which writes a status line and no
body. -/
def Response.statusOnly : Response → Bool
  | .WithStatus _ => true
  | _ => false

/-- The body text of the two calls of `goweb.Respond` that write one: the bytes
handed to `With`, and for `WithStatusText` the text `http.StatusText` gives for
the status.  The table behind `http.StatusText` belongs to the standard
library and is taken as the parameter `StatusText`. -/
def Response.bodyText (StatusText : Int → String) : Response → Option String
  | .With _ body => some body
  | .WithStatusText s => some (StatusText s)
  | _ => none

/-- What a handler invocation ends in: it returns after a responder call, or it
panics with a failed type assertion. -/
inductive Outcome where
  | returned (r : Response)
  | panic (e : TypeAssertionError)
  deriving DecidableEq, Repr

/-! ## `BooksController` -/

namespace BooksController

/-- The method `Create`.  `requestData` is the pair `ctx.RequestData()` returns: an
error, or the decoded body. -/
def Create (r : BooksController) (requestData : Except String Value) :
    Outcome × BooksController :=
  match requestData with
  | .error dataErr =>
    (.returned (.RespondWithError http.StatusInternalServerError dataErr), r)
  | .ok data =>
    match assertMap data with
    | .error e => (.panic e, r)
    | .ok dataMap =>
      match assertString (index dataMap "Id") with
      | .error e => (.panic e, r)
      | .ok id =>
        match assertString (index dataMap "Title") with
        | .error e => (.panic e, r)
        | .ok title =>
          match assertString (index dataMap "Author") with
          | .error e => (.panic e, r)
          | .ok author =>
            match assertString (index dataMap "Price") with
            | .error e => (.panic e, r)
            | .ok price =>
              (.returned (.WithStatus http.StatusCreated),
                { Books := some (r.Books.entities ++ [⟨id, title, author, price⟩]) })

/-- The method `ReadMany`. -/
def ReadMany (r : BooksController) : Response × BooksController :=
  let r1 : BooksController :=
    match r.Books with
    | none => { Books := some [] }
    | some _ => r
  (.RespondWithData (.books r1.Books), r1)

/-- The `range` loop of `Read` over the books still to visit, with the
status-only fall-through after it. -/
def Read.loop (id : String) : List Book → Response
  | [] => .WithStatus http.StatusNotFound
  | book :: rest =>
    if book.Id == id then .RespondWithData (.book book) else Read.loop id rest

/-- The method `Read`. -/
def Read (r : BooksController) (id : String) : Response × BooksController :=
  (Read.loop id r.Books.entities, r)

/-- The method `DeleteMany`. -/
def DeleteMany (_r : BooksController) : Response × BooksController :=
  (.WithOK, { Books := some [] })

/-- The `range` loop of `Delete`: `newBooks` is the slice built so far. -/
def Delete.loop (id : String) (newBooks : List Book) : List Book → List Book
  | [] => newBooks
  | book :: rest =>
    if book.Id != id then Delete.loop id (newBooks ++ [book]) rest
    else Delete.loop id newBooks rest

/-- The method `Delete`. -/
def Delete (r : BooksController) (id : String) : Response × BooksController :=
  (.WithOK, { Books := some (Delete.loop id [] r.Books.entities) })

end BooksController

/-! ## The route `/status-code/{code}` -/

namespace strconv

/-- The digit loop of `Atoi`: base 10, every byte must be an ASCII digit. -/
def Atoi.digits : Nat → List Char → Option Nat
  | n, [] => some n
  | n, ch :: rest =>
    if ch.isDigit then Atoi.digits (n * 10 + (ch.toNat - '0'.toNat)) rest else none

/-- The size in bits of an `int`. -/
def IntSize : Nat := 64

/-- The standard library function `strconv.Atoi`, as far as the program uses it:
`none` when it reports an error.  It accepts an optional sign followed by one or
more decimal digits, and reports a range error when the number does not fit
in an `int`. -/
def Atoi (s : String) : Option Int :=
  match s.data with
  | [] => none
  | c :: cs =>
    let body := if c == '-' || c == '+' then cs else c :: cs
    if body.isEmpty then none
    else
      match Atoi.digits 0 body with
      | none => none
      | some n =>
        if c == '-' then (if n ≤ 2 ^ (IntSize - 1) then some (-(n : Int)) else none)
        else (if n < 2 ^ (IntSize - 1) then some (n : Int) else none)

end strconv

namespace mapRoutes

/-- The handler `mapRoutes` maps to `/status-code/{code}`; `code` is
`c.PathValue("code")`. -/
def statusCode (code : String) : Response :=
  match strconv.Atoi code with
  | none =>
    .With http.StatusInternalServerError
      "Failed to convert 'code' into a real status code number."
  | some statusCodeInt => .WithStatusText statusCodeInt

end mapRoutes

/-! ## Vocabulary of the properties -/

/-- A valid field map for `book`: each of the four fields is present in `dataMap` as
a string, and `book` is the entity with those four strings. -/
def FieldsOf (dataMap : List (String × Value)) (book : Book) : Prop :=
  index dataMap "Id" = .string book.Id ∧ index dataMap "Title" = .string book.Title ∧
    index dataMap "Author" = .string book.Author ∧ index dataMap "Price" = .string book.Price

/-- The field is absent from the map, or present with a value that is not a
string. -/
def Malformed (dataMap : List (String × Value)) (key : String) : Prop :=
  dataMap.lookup key = none ∨ ∃ v, dataMap.lookup key = some v ∧ ∀ s, v ≠ .string s

/-! ## Lemmas on the loops -/

/-- The loop of `Delete` appends to `newBooks` the books whose Id differs from `id`. -/
theorem Delete_loop_eq (id : String) (xs : List Book) :
    ∀ newBooks, BooksController.Delete.loop id newBooks xs =
      newBooks ++ xs.filter (fun b => b.Id != id) := by
  induction xs with
  | nil => intro newBooks; simp [BooksController.Delete.loop]
  | cons b rest ih =>
    intro newBooks
    by_cases h : b.Id = id
    · simp [BooksController.Delete.loop, h, ih]
    · simp [BooksController.Delete.loop, h, ih]

/-- The loop of `Read` answers with the first book `List.find?` finds. -/
theorem Read_loop_find (id : String) (xs : List Book) :
    BooksController.Read.loop id xs =
      match xs.find? (fun b => b.Id == id) with
      | some b => .RespondWithData (.book b)
      | none => .WithStatus http.StatusNotFound := by
  induction xs with
  | nil => simp [BooksController.Read.loop]
  | cons b rest ih =>
    by_cases h : b.Id = id
    · simp [BooksController.Read.loop, h]
    · simp [BooksController.Read.loop, h, ih, List.find?_cons]

/-- With no book of that Id the loop of `Read` falls through to 404. -/
theorem Read_loop_absent (id : String) (xs : List Book)
    (h : ∀ b ∈ xs, b.Id ≠ id) :
    BooksController.Read.loop id xs = .WithStatus http.StatusNotFound := by
  induction xs with
  | nil => simp [BooksController.Read.loop]
  | cons b rest ih =>
    have hb : b.Id ≠ id := h b (List.mem_cons_self _ _)
    simp only [BooksController.Read.loop, beq_iff_eq, hb, if_false]
    exact ih (fun x hx => h x (List.mem_cons_of_mem _ hx))

/-- The loop of `Read` answers 404 exactly when no book has the Id. -/
theorem Read_loop_status (id : String) (xs : List Book) :
    (BooksController.Read.loop id xs).status = 404 ↔ ∀ b ∈ xs, b.Id ≠ id := by
  induction xs with
  | nil => simp [BooksController.Read.loop, Response.status, http.StatusNotFound]
  | cons b rest ih =>
    by_cases h : b.Id = id
    · simp [BooksController.Read.loop, h, Response.status, http.StatusOK]
    · simp [BooksController.Read.loop, h, ih]

/-- On a valid field map `Create` appends the book and answers 201. -/
theorem Create_of_fields (r : BooksController) (dataMap : List (String × Value))
    (book : Book) (h : FieldsOf dataMap book) :
    BooksController.Create r (.ok (.map dataMap)) =
      (.returned (.WithStatus 201), { Books := some (r.Books.entities ++ [book]) }) := by
  obtain ⟨h1, h2, h3, h4⟩ := h
  simp [BooksController.Create, assertMap, assertString, h1, h2, h3, h4, http.StatusCreated]

/-- Indexing a malformed field never gives a string. -/
theorem index_of_malformed (dataMap : List (String × Value)) (key : String)
    (h : Malformed dataMap key) : ∀ s, index dataMap key ≠ .string s := by
  intro s
  rcases h with h | ⟨v, hv, hs⟩
  · simp [index, h]
  · simp only [index, hv]; exact hs s

/-- The assertion to string fails on every value that is not a string. -/
theorem assertString_error (v : Value) (h : ∀ s, v ≠ .string s) :
    assertString v = .error ⟨v.typeName, "string"⟩ := by
  cases v <;> first | rfl | exact absurd rfl (h _)

/-- Sample values of `strconv.Atoi`: signs, leading zeros, syntax errors and the
ends of the 64-bit range. -/
theorem Atoi_examples :
    strconv.Atoi "404" = some 404 ∧ strconv.Atoi "-1" = some (-1) ∧
    strconv.Atoi "+7" = some 7 ∧ strconv.Atoi "007" = some 7 ∧
    strconv.Atoi "" = none ∧ strconv.Atoi "-" = none ∧ strconv.Atoi "12a" = none ∧
    strconv.Atoi " 1" = none ∧ strconv.Atoi "1_0" = none ∧
    strconv.Atoi "9223372036854775807" = some 9223372036854775807 ∧
    strconv.Atoi "-9223372036854775808" = some (-9223372036854775808) ∧
    strconv.Atoi "-9223372036854775809" = none := by
  decide

/-- After `Delete` no stored book has the id. -/
theorem delete_removes_all_matches_aux (r : BooksController) (id : String) :
    ∀ b ∈ (BooksController.Delete r id).2.Books.entities, b.Id ≠ id := by
  intro b hb
  have hb2 : b ∈ BooksController.Delete.loop id [] r.Books.entities := hb
  rw [Delete_loop_eq] at hb2
  simpa using (List.mem_filter.mp hb2).2

/-! ## The controller's properties -/

/-- C1, as stated, fails: with a book of Id "1" already stored, creating another
book with Id "1" and then reading "1" returns the earlier book, whose Title,
Author and Price differ from the input's. -/
theorem create_read_returns_earlier :
    (BooksController.Read
        (BooksController.Create { Books := some [⟨"1", "Old", "X", "1.00"⟩] }
          (.ok (.map [("Id", .string "1"), ("Title", .string "New"),
            ("Author", .string "Y"), ("Price", .string "2.00")]))).2 "1").1
      = .RespondWithData (.book ⟨"1", "Old", "X", "1.00"⟩) ∧
    (BooksController.Read
        (BooksController.Create { Books := some [⟨"1", "Old", "X", "1.00"⟩] }
          (.ok (.map [("Id", .string "1"), ("Title", .string "New"),
            ("Author", .string "Y"), ("Price", .string "2.00")]))).2 "1").1
      ≠ .RespondWithData (.book ⟨"1", "New", "Y", "2.00"⟩) := by
  decide

/-- C1, amended: for every store and every valid field map, Create answers 201
and the following Read with the map's Id answers 200 with the first stored
entity having that Id; when no entity stored before has that Id, this is the
entity built from the map, so its Id, Title, Author and Price equal the
input's. -/
theorem create_then_read (r : BooksController) (dataMap : List (String × Value))
    (book : Book) (h : FieldsOf dataMap book) :
    (BooksController.Create r (.ok (.map dataMap))).1 = .returned (.WithStatus 201) ∧
    ((BooksController.Read (BooksController.Create r (.ok (.map dataMap))).2 book.Id).1).status
      = 200 ∧
    (BooksController.Read (BooksController.Create r (.ok (.map dataMap))).2 book.Id).1
      = .RespondWithData
          (.book ((r.Books.entities.find? (fun b => b.Id == book.Id)).getD book)) ∧
    ((∀ b ∈ r.Books.entities, b.Id ≠ book.Id) →
      (BooksController.Read (BooksController.Create r (.ok (.map dataMap))).2 book.Id).1
        = .RespondWithData (.book book)) := by
  rw [Create_of_fields r dataMap book h]
  have key : BooksController.Read.loop book.Id (r.Books.entities ++ [book]) =
      .RespondWithData
        (.book ((r.Books.entities.find? (fun b => b.Id == book.Id)).getD book)) := by
    rw [Read_loop_find, List.find?_append]
    cases hf : r.Books.entities.find? (fun b => b.Id == book.Id) with
    | some b => simp
    | none => simp
  have hread : (BooksController.Read
      { Books := some (r.Books.entities ++ [book]) } book.Id).1 =
      .RespondWithData
        (.book ((r.Books.entities.find? (fun b => b.Id == book.Id)).getD book)) := key
  refine ⟨rfl, ?_, hread, ?_⟩
  · rw [hread]; rfl
  · intro hno
    have hnone : r.Books.entities.find? (fun b => b.Id == book.Id) = none := by
      rw [List.find?_eq_none]
      intro b hb
      simpa using hno b hb
    rw [hread, hnone]
    rfl

/-- The amended C1 at a store holding a book of another Id. -/
theorem create_then_read_witness :
    FieldsOf [("Id", .string "1"), ("Title", .string "T"), ("Author", .string "A"),
        ("Price", .string "9.99")] ⟨"1", "T", "A", "9.99"⟩ ∧
    (BooksController.Read
        (BooksController.Create { Books := some [⟨"2", "U", "B", "1.00"⟩] }
          (.ok (.map [("Id", .string "1"), ("Title", .string "T"), ("Author", .string "A"),
            ("Price", .string "9.99")]))).2 "1").1
      = .RespondWithData (.book ⟨"1", "T", "A", "9.99"⟩) :=
  ⟨⟨rfl, rfl, rfl, rfl⟩,
    (create_then_read { Books := some [⟨"2", "U", "B", "1.00"⟩] }
      [("Id", .string "1"), ("Title", .string "T"), ("Author", .string "A"),
        ("Price", .string "9.99")] ⟨"1", "T", "A", "9.99"⟩ ⟨rfl, rfl, rfl, rfl⟩).2.2.2
      (by decide)⟩

/-- C2: for every store and every id, Delete answers with the OK call (status
200) and leaves as store exactly the prior sequence without the entities whose
Id equals the id: all of them are gone, the others stay in their order. -/
theorem delete_removes_all_matches (r : BooksController) (id : String) :
    (BooksController.Delete r id).1 = .WithOK ∧
    (BooksController.Delete r id).1.status = 200 ∧
    (BooksController.Delete r id).2.Books =
      some (r.Books.entities.filter (fun b => b.Id != id)) ∧
    (∀ b ∈ (BooksController.Delete r id).2.Books.entities, b.Id ≠ id) ∧
    List.Sublist (BooksController.Delete r id).2.Books.entities r.Books.entities := by
  have hstore : (BooksController.Delete r id).2.Books =
      some (r.Books.entities.filter (fun b => b.Id != id)) := by
    simp [BooksController.Delete, Delete_loop_eq]
  refine ⟨rfl, rfl, hstore, ?_, ?_⟩
  · rw [hstore]
    intro b hb
    have hb2 : b ∈ r.Books.entities.filter (fun b => b.Id != id) := hb
    simpa using (List.mem_filter.mp hb2).2
  · rw [hstore]
    exact List.filter_sublist _

/-- C3: when no stored entity has the id, Delete answers status 200 and the store
holds the same entities in the same order as before; a store that was not nil
is left identical, and in every case ReadMany answers and leaves the same
after the Delete as it would have before it. -/
theorem delete_absent_unchanged (r : BooksController) (id : String)
    (h : ∀ b ∈ r.Books.entities, b.Id ≠ id) :
    (BooksController.Delete r id).1.status = 200 ∧
    (BooksController.Delete r id).2.Books.entities = r.Books.entities ∧
    (r.Books ≠ none → (BooksController.Delete r id).2 = r) ∧
    BooksController.ReadMany (BooksController.Delete r id).2 = BooksController.ReadMany r := by
  have hfilter : r.Books.entities.filter (fun b => b.Id != id) = r.Books.entities := by
    rw [List.filter_eq_self]
    intro b hb
    simpa using h b hb
  have hstore : (BooksController.Delete r id).2.Books = some r.Books.entities := by
    simp [BooksController.Delete, Delete_loop_eq, hfilter]
  have hafter : (BooksController.Delete r id).2 = { Books := some r.Books.entities } := by
    cases hd : (BooksController.Delete r id).2 with
    | mk b2 =>
      rw [hd] at hstore
      simp only at hstore
      rw [hstore]
  refine ⟨rfl, ?_, ?_, ?_⟩
  · rw [hstore]; rfl
  · intro hne
    rw [hafter]
    obtain ⟨books⟩ := r
    cases books with
    | none => exact absurd rfl hne
    | some xs => rfl
  · rw [hafter]
    obtain ⟨books⟩ := r
    cases books with
    | none => rfl
    | some xs => rfl

/-- C3 at a store of two books, deleting an Id neither has. -/
theorem delete_absent_unchanged_witness :
    (BooksController.Delete
      { Books := some [⟨"1", "T", "A", "9.99"⟩, ⟨"2", "U", "B", "1.00"⟩] } "3").2 =
      { Books := some [⟨"1", "T", "A", "9.99"⟩, ⟨"2", "U", "B", "1.00"⟩] } :=
  (delete_absent_unchanged
    { Books := some [⟨"1", "T", "A", "9.99"⟩, ⟨"2", "U", "B", "1.00"⟩] } "3"
    (by decide)).2.2.1 (by decide)

/-- C4: Read never modifies the store; it answers 200 with the first entity in
store order whose Id equals the id when there is one, and with the status-only
404 otherwise; the status is 404 exactly when no stored entity has the id. -/
theorem read_first_match (r : BooksController) (id : String) :
    (BooksController.Read r id).2 = r ∧
    (match r.Books.entities.find? (fun b => b.Id == id) with
      | some b =>
        (BooksController.Read r id).1 = .RespondWithData (.book b) ∧
          (BooksController.Read r id).1.status = 200
      | none =>
        (BooksController.Read r id).1 = .WithStatus 404 ∧
          (BooksController.Read r id).1.statusOnly = true) ∧
    ((BooksController.Read r id).1.status = 404 ↔ ∀ b ∈ r.Books.entities, b.Id ≠ id) := by
  refine ⟨rfl, ?_, Read_loop_status id r.Books.entities⟩
  have hfind := Read_loop_find id r.Books.entities
  cases hf : r.Books.entities.find? (fun b => b.Id == id) with
  | some b =>
    rw [hf] at hfind
    have hr : (BooksController.Read r id).1 = .RespondWithData (.book b) := hfind
    exact ⟨hr, by rw [hr]; rfl⟩
  | none =>
    rw [hf] at hfind
    have hr : (BooksController.Read r id).1 = .WithStatus 404 := hfind
    exact ⟨hr, by rw [hr]; rfl⟩

/-- C5: for every store and every valid field map, Create leaves the prior
sequence followed by the one entity built from the map, and answers with the
status-only call for 201. -/
theorem create_appends (r : BooksController) (dataMap : List (String × Value))
    (book : Book) (h : FieldsOf dataMap book) :
    (BooksController.Create r (.ok (.map dataMap))).1 = .returned (.WithStatus 201) ∧
    Response.statusOnly (.WithStatus 201) = true ∧
    (BooksController.Create r (.ok (.map dataMap))).2.Books =
      some (r.Books.entities ++ [book]) := by
  rw [Create_of_fields r dataMap book h]
  exact ⟨rfl, rfl, rfl⟩

/-- C5 at a store of one book. -/
theorem create_appends_witness :
    (BooksController.Create { Books := some [⟨"2", "U", "B", "1.00"⟩] }
      (.ok (.map [("Id", .string "1"), ("Title", .string "T"), ("Author", .string "A"),
        ("Price", .string "9.99")]))).2.Books =
      some [⟨"2", "U", "B", "1.00"⟩, ⟨"1", "T", "A", "9.99"⟩] :=
  (create_appends { Books := some [⟨"2", "U", "B", "1.00"⟩] }
    [("Id", .string "1"), ("Title", .string "T"), ("Author", .string "A"),
      ("Price", .string "9.99")] ⟨"1", "T", "A", "9.99"⟩ ⟨rfl, rfl, rfl, rfl⟩).2.2

/-- C6: whatever the store holds, DeleteMany answers with the OK call (status
200) and a ReadMany right after it returns the empty, non-nil collection. -/
theorem deleteMany_then_readMany (r : BooksController) :
    (BooksController.DeleteMany r).1 = .WithOK ∧
    (BooksController.DeleteMany r).1.status = 200 ∧
    (BooksController.ReadMany (BooksController.DeleteMany r).2).1 =
      .RespondWithData (.books (some [])) ∧
    (BooksController.ReadMany (BooksController.DeleteMany r).2).1.status = 200 :=
  ⟨rfl, rfl, rfl, rfl⟩

/-- C7: on a fresh controller, whose Books is nil, ReadMany answers 200 with the
empty non-nil collection and leaves the store the empty non-nil sequence; on
every other store it answers 200 with the whole sequence in store order and
leaves the store as it was. -/
theorem readMany_fresh_and_full :
    BooksController.ReadMany BooksController.new =
      (.RespondWithData (.books (some [])), { Books := some [] }) ∧
    (BooksController.ReadMany BooksController.new).1.status = 200 ∧
    (∀ xs : List Book,
      BooksController.ReadMany { Books := some xs } =
        (.RespondWithData (.books (some xs)), { Books := some xs }) ∧
      (BooksController.ReadMany { Books := some xs }).1.status = 200) :=
  ⟨rfl, rfl, fun _ => ⟨rfl, rfl⟩⟩

/-- C8: when the body decodes to a field map in which one of Id, Title, Author,
Price is absent or not a string, Create does not return a response: it panics
with the error of a failed assertion to string, and the store stays as it
was. -/
theorem create_malformed_panics (r : BooksController) (dataMap : List (String × Value))
    (key : String) (hkey : key ∈ ["Id", "Title", "Author", "Price"])
    (h : Malformed dataMap key) :
    ∃ e : TypeAssertionError, e.asserted = "string" ∧
      BooksController.Create r (.ok (.map dataMap)) = (.panic e, r) := by
  have hbad := assertString_error _ (index_of_malformed dataMap key h)
  have step : ∀ v : Value, (∃ s, assertString v = .ok s) ∨
      assertString v = .error ⟨v.typeName, "string"⟩ := by
    intro v
    cases v <;> first | exact Or.inr rfl | exact Or.inl ⟨_, rfl⟩
  simp only [BooksController.Create, assertMap]
  rcases step (index dataMap "Id") with ⟨s1, h1⟩ | h1
  · rcases step (index dataMap "Title") with ⟨s2, h2⟩ | h2
    · rcases step (index dataMap "Author") with ⟨s3, h3⟩ | h3
      · rcases step (index dataMap "Price") with ⟨s4, h4⟩ | h4
        · exfalso
          simp only [List.mem_cons, List.mem_singleton, List.not_mem_nil, or_false] at hkey
          rcases hkey with rfl | rfl | rfl | rfl
          · rw [h1] at hbad; cases hbad
          · rw [h2] at hbad; cases hbad
          · rw [h3] at hbad; cases hbad
          · rw [h4] at hbad; cases hbad
        · exact ⟨⟨_, "string"⟩, rfl, by simp only [h1, h2, h3, h4]; rfl⟩
      · exact ⟨⟨_, "string"⟩, rfl, by simp only [h1, h2, h3]; rfl⟩
    · exact ⟨⟨_, "string"⟩, rfl, by simp only [h1, h2]; rfl⟩
  · exact ⟨⟨_, "string"⟩, rfl, by simp only [h1]; rfl⟩

/-- C8 at a field map without Price. -/
theorem create_malformed_panics_witness :
    Malformed [("Id", .string "1"), ("Title", .string "T"), ("Author", .string "A")]
      "Price" ∧
    ∃ e : TypeAssertionError, e.asserted = "string" ∧
      BooksController.Create { Books := some [⟨"2", "U", "B", "1.00"⟩] }
        (.ok (.map [("Id", .string "1"), ("Title", .string "T"), ("Author", .string "A")]))
        = (.panic e, { Books := some [⟨"2", "U", "B", "1.00"⟩] }) :=
  ⟨Or.inl rfl,
    create_malformed_panics { Books := some [⟨"2", "U", "B", "1.00"⟩] }
      [("Id", .string "1"), ("Title", .string "T"), ("Author", .string "A")] "Price"
      (by decide) (Or.inl rfl)⟩

/-- C9: for every path value `code`, the status-code handler answers status 500
with the body "Failed to convert 'code' into a real status code number." when
`strconv.Atoi` rejects `code`, and otherwise answers with the parsed integer as
status and that status's text as body; "200" gives status 200 with the text
for 200, and "abc" gives 500.  A numeral too large for an `int` is among
the values `strconv.Atoi` rejects. -/
theorem statusCode_response (StatusText : Int → String) (code : String) :
    (strconv.Atoi code = none →
      mapRoutes.statusCode code =
        .With 500 "Failed to convert 'code' into a real status code number." ∧
      (mapRoutes.statusCode code).status = 500 ∧
      (mapRoutes.statusCode code).bodyText StatusText =
        some "Failed to convert 'code' into a real status code number.") ∧
    (∀ n : Int, strconv.Atoi code = some n →
      mapRoutes.statusCode code = .WithStatusText n ∧
      (mapRoutes.statusCode code).status = n ∧
      (mapRoutes.statusCode code).bodyText StatusText = some (StatusText n)) ∧
    (mapRoutes.statusCode "200").status = 200 ∧
    (mapRoutes.statusCode "200").bodyText StatusText = some (StatusText 200) ∧
    (mapRoutes.statusCode "abc").status = 500 ∧
    (mapRoutes.statusCode "9223372036854775808").status = 500 := by
  refine ⟨?_, ?_, ?_, ?_, ?_, ?_⟩
  · intro h
    have hs : mapRoutes.statusCode code =
        .With 500 "Failed to convert 'code' into a real status code number." := by
      simp only [mapRoutes.statusCode, h]; rfl
    rw [hs]
    exact ⟨rfl, rfl, rfl⟩
  · intro n h
    have hs : mapRoutes.statusCode code = .WithStatusText n := by
      simp only [mapRoutes.statusCode, h]
    rw [hs]
    exact ⟨rfl, rfl, rfl⟩
  · decide
  · have h : mapRoutes.statusCode "200" = .WithStatusText 200 := by decide
    rw [h]; rfl
  · decide
  · decide

/-- C10: for every store and every id, Delete answers status 200 and a Read of the
same id right after it answers the status-only 404; on a fresh controller,
creating the book 1/T/A/9.99, reading "1", deleting "1" and reading "1" again
answer 201, 200 with that book, 200 and 404. -/
theorem delete_then_read_not_found (r : BooksController) (id : String) :
    (BooksController.Delete r id).1.status = 200 ∧
    (BooksController.Read (BooksController.Delete r id).2 id).1 = .WithStatus 404 ∧
    (BooksController.Read (BooksController.Delete r id).2 id).1.status = 404 ∧
    (BooksController.Create BooksController.new
      (.ok (.map [("Id", .string "1"), ("Title", .string "T"), ("Author", .string "A"),
        ("Price", .string "9.99")]))).1 = .returned (.WithStatus 201) ∧
    (BooksController.Read
      (BooksController.Create BooksController.new
        (.ok (.map [("Id", .string "1"), ("Title", .string "T"), ("Author", .string "A"),
          ("Price", .string "9.99")]))).2 "1")
      = (.RespondWithData (.book ⟨"1", "T", "A", "9.99"⟩),
          { Books := some [⟨"1", "T", "A", "9.99"⟩] }) ∧
    (Response.RespondWithData (.book ⟨"1", "T", "A", "9.99"⟩)).status = 200 ∧
    BooksController.Delete { Books := some [⟨"1", "T", "A", "9.99"⟩] } "1"
      = (.WithOK, { Books := some [] }) ∧
    Response.WithOK.status = 200 ∧
    (BooksController.Read { Books := some [] } "1").1 = .WithStatus 404 := by
  have hread : (BooksController.Read (BooksController.Delete r id).2 id).1 =
      .WithStatus 404 := by
    have hmem := (delete_removes_all_matches_aux r id)
    exact Read_loop_absent id _ hmem
  refine ⟨rfl, hread, ?_, ?_, ?_, rfl, ?_, rfl, ?_⟩
  · rw [hread]; rfl
  · decide
  · decide
  · decide
  · decide

end RestServer
